import Mathlib

/-!
Verification development for the daddy_zeus weather bot.

The embedding models the dedup-aware sunny-alert scheduling core
(src/bot/alert_scheduler.py), the subscription store (src/bot/utils/db.py)
and the rain/UV recommendation thresholds (src/bot/handlers/commands.py,
src/weather_bot.py).

Modelling conventions:
- Timestamps are absolute UTC instants in seconds, as `Int`.  The Python code
  normalises naive datetimes to UTC before comparing, so a single integer
  timeline is faithful.
- A stored or transmitted time string that may fail `datetime.fromisoformat`
  is modelled as `Option Int`: `none` is an unparseable string, `some t` a
  string parsing to instant `t`.
- The ledger bucket key string `t.strftime("%Y-%m-%d %H:00")` is injective in
  the hour of `t` (for UTC-normalised instants), so it is modelled by the
  hour-truncated instant `truncHour t`.
- SQLite tables become lists of record structures; primary-key lookup is
  `List.find?` on the key columns.
-/

namespace DaddyZeus

/-- Row of the sent_sunny_alerts table created by ensure_sent_alerts_table:
user_id INTEGER, alert_time TEXT (the bucket key, modelled as the
hour-truncated instant), sent_at TIMESTAMP (modelled as `Option Int`:
`none` stands for a stored string that datetime.fromisoformat rejects). -/
structure SentRecord where
  user_id : Int
  alert_time : Int
  sent_at : Option Int
deriving DecidableEq, Repr

/-- Primary-key lookup on (user_id, alert_time), as in the SELECT of
has_sent_alert / has_sent_alert_in_past_n_hours. -/
def findSent (L : List SentRecord) (u bk : Int) : Option SentRecord :=
  L.find? (fun r => r.user_id == u && r.alert_time == bk)

/-- mark_alert_sent: INSERT OR IGNORE INTO sent_sunny_alerts (user_id,
alert_time) VALUES (?, ?) with sent_at defaulting to CURRENT_TIMESTAMP,
here the evaluation instant `now`.  The OR IGNORE against the primary key
(user_id, alert_time) makes this insert-if-absent. -/
def mark_alert_sent (L : List SentRecord) (u bk now : Int) : List SentRecord :=
  match findSent L u bk with
  | some _ => L
  | none => ⟨u, bk, some now⟩ :: L

/-- has_sent_alert_in_past_n_hours: fetch the row for (user_id, alert_time);
no row gives False; a sent_at that fails datetime.fromisoformat gives False;
otherwise the result is (now - sent_at).total_seconds() < n * 60 * 60. -/
def has_sent_alert_in_past_n_hours (L : List SentRecord) (u bk n now : Int) : Bool :=
  match findSent L u bk with
  | none => false
  | some r =>
    match r.sent_at with
    | none => false
    | some s => decide (now - s < n * 60 * 60)

/-- Hour truncation: the instant whose strftime "%Y-%m-%d %H:00" rendering
equals that of `t`.  Int.emod is nonnegative for positive modulus, so this
is floor-truncation to the hour, matching calendar truncation for
UTC-normalised instants. -/
def truncHour (t : Int) : Int :=
  t - Int.emod t 3600

/-- Notification attempt made by send_sunny_alert: the message quotes the
forecast instant (its %H:%M rendering).  send_sunny_alert wraps
bot.send_message in try/except and swallows any failure, so the attempt
always completes; `delivered` records whether the underlying send
succeeded. -/
structure Notif where
  user_id : Int
  forecast_time : Int
  delivered : Bool
deriving DecidableEq, Repr

/-- Evaluator state threaded through the per-entry loop of
process_sunny_alerts: the sent_sunny_alerts table plus the notification
attempts made so far this cycle. -/
structure SunnyState where
  ledger : List SentRecord
  notifs : List Notif
deriving DecidableEq, Repr

/-- Body of the per-entry loop of process_sunny_alerts for one
(t_str, code) pair of the zipped hourly series:
unparseable timestamp continues; t <= now continues; on code == 0 with
0 <= (t - 2h - now) <= 7200 the bucket key t.strftime("%Y-%m-%d %H:00")
is checked against the cooldown ledger, and if fresh the alert is sent and
marked.  `sendOk` models whether bot.send_message succeeds for that
user and forecast hour. -/
def sunnyStep (now : Int) (sendOk : Int → Int → Bool) (uid : Int)
    (st : SunnyState) (entry : Option Int × Int) : SunnyState :=
  match entry.1 with
  | none => st
  | some t =>
    if t ≤ now then st
    else if entry.2 = 0 then
      if 0 ≤ t - 7200 - now ∧ t - 7200 - now ≤ 7200 then
        if has_sent_alert_in_past_n_hours st.ledger uid (truncHour t) 2 now then st
        else
          { ledger := mark_alert_sent st.ledger uid (truncHour t) now,
            notifs := st.notifs ++ [⟨uid, t, sendOk uid t⟩] }
      else st
    else st

/-- Inner loop of process_sunny_alerts over the hourly series of one user:
for t_str, code in zip(times, codes, strict=False).  zip with strict=False
silently truncates to the shorter list. -/
def process_user_hours (now : Int) (sendOk : Int → Int → Bool) (uid : Int)
    (times : List (Option Int)) (codes : List Int) (st : SunnyState) : SunnyState :=
  (times.zip codes).foldl (sunnyStep now sendOk uid) st

/-- Hourly payload of get_hourly_weather_data after the guard
`if not weather or "hourly" not in weather`: the time and weather_code
series (each defaulted to [] by .get when the key is missing). -/
structure HourlyData where
  times : List (Option Int)
  codes : List Int
deriving DecidableEq, Repr

/-- State of one scheduler tick: the ledger and attempts as in SunnyState,
plus the users the loop has iterated over (used to express that no failure
aborts the batch). -/
structure TickState where
  ledger : List SentRecord
  notifs : List Notif
  visited : List Int
deriving DecidableEq, Repr

/-- Body of the per-user loop of process_sunny_alerts: fetch the hourly
forecast; on None or a missing "hourly" key log and continue to the next
user; otherwise run the per-entry evaluation. -/
def tickStep (now : Int) (fetch : Int → Option HourlyData)
    (sendOk : Int → Int → Bool) (st : TickState) (uid : Int) : TickState :=
  match fetch uid with
  | none => { st with visited := st.visited ++ [uid] }
  | some w =>
    let r := process_user_hours now sendOk uid w.times w.codes ⟨st.ledger, st.notifs⟩
    { ledger := r.ledger, notifs := r.notifs, visited := st.visited ++ [uid] }

/-- process_sunny_alerts: one evaluation cycle over the candidate users,
starting from the current sent_sunny_alerts table `L`. -/
def process_sunny_alerts (now : Int) (fetch : Int → Option HourlyData)
    (sendOk : Int → Int → Bool) (users : List Int) (L : List SentRecord) : TickState :=
  users.foldl (tickStep now fetch sendOk) ⟨L, [], []⟩

/-! Subscription store (src/bot/utils/db.py).  Coordinates are inert
payload to every store operation (no arithmetic is ever performed on them),
so REAL columns are modelled as Int. -/

/-- Row of the users table: user_id INTEGER PRIMARY KEY, username,
location_lat, location_lon, location_name.  Rows are created only by
save_user_location, which always supplies the full location. -/
structure UserRow where
  user_id : Int
  username : String
  location_lat : Int
  location_lon : Int
  location_name : String
deriving DecidableEq, Repr

/-- Row of the alerts table: id PK AUTOINCREMENT, user_id, alert_type,
alert_time, conditions, active BOOLEAN DEFAULT 1. -/
structure AlertRow where
  id : Int
  user_id : Int
  alert_type : String
  alert_time : String
  conditions : String
  active : Bool
deriving DecidableEq, Repr

/-- The two persisted tables the claims touch. -/
structure DB where
  users : List UserRow
  alerts : List AlertRow
deriving DecidableEq, Repr

/-- save_user_location: INSERT OR REPLACE INTO users keyed on the
user_id primary key. -/
def save_user_location (db : DB) (uid : Int) (uname : String)
    (lat lon : Int) (name : String) : DB :=
  { db with
    users := ⟨uid, uname, lat, lon, name⟩ ::
      db.users.filter (fun r => !(r.user_id == uid)) }

/-- get_user_location: SELECT location_lat, location_lon, location_name
FROM users WHERE user_id = ?; None when no row exists. -/
def get_user_location (db : DB) (uid : Int) : Option (Int × Int × String) :=
  (db.users.find? (fun r => r.user_id == uid)).map
    (fun r => (r.location_lat, r.location_lon, r.location_name))

/-- save_alert: INSERT INTO alerts (user_id, alert_type, alert_time,
conditions); active defaults to 1 and the id is fresh. -/
def save_alert (db : DB) (newId uid : Int) (ty time cond : String) : DB :=
  { db with alerts := db.alerts ++ [⟨newId, uid, ty, time, cond, true⟩] }

/-- get_user_alerts: SELECT alert_type, alert_time, conditions FROM alerts
WHERE user_id = ? AND active = 1. -/
def get_user_alerts (db : DB) (uid : Int) : List (String × String × String) :=
  (db.alerts.filter (fun a => a.user_id == uid && a.active)).map
    (fun a => (a.alert_type, a.alert_time, a.conditions))

/-- deactivate_user_alerts: UPDATE alerts SET active = 0 WHERE user_id = ?. -/
def deactivate_user_alerts (db : DB) (uid : Int) : DB :=
  { db with alerts :=
      db.alerts.map (fun a => if a.user_id == uid then { a with active := false } else a) }

/-- get_sunny_alert_users: SELECT DISTINCT u.user_id, u.location_lat,
u.location_lon, u.location_name FROM users u JOIN alerts a ON
u.user_id = a.user_id WHERE a.alert_type = sunny AND a.active = 1.
The join keeps exactly the user rows with at least one matching alert row;
DISTINCT on the projected tuple is List.dedup. -/
def get_sunny_alert_users (db : DB) : List (Int × Int × Int × String) :=
  ((db.users.filter (fun u => db.alerts.any
      (fun a => a.user_id == u.user_id && a.alert_type == "sunny" && a.active))).map
    (fun u => (u.user_id, u.location_lat, u.location_lon, u.location_name))).dedup

/-! Rain/UV recommendation thresholds (get_recommendations in
src/bot/handlers/commands.py and WeatherBot.generate_rain_uv_alert in
src/weather_bot.py).  The advice strings are modelled as tokens; the
isinstance number checks always pass for Int inputs and are dropped. -/

/-- Advice tokens of get_recommendations / generate_rain_uv_alert. -/
inductive Advice
  | umbrellaStrong
  | umbrellaWeak
  | sunscreenHigh
  | sunscreenMod
  | fogCaution
  | stayIndoors
  | thunder
  | snowIce
deriving DecidableEq, Repr

/-- get_recommendations: umbrella advice from precip_prob (> 60 strong,
elif > 30 weak), sunscreen advice from uv_index (>= 6 high, elif >= 3
moderate), then the weather_code table; the empty list models the
"No special recommendations" fallback string. -/
def get_recommendations (weather_code precip_prob uv_index : Int) : List Advice :=
  (if precip_prob > 60 then [Advice.umbrellaStrong]
   else if precip_prob > 30 then [Advice.umbrellaWeak] else []) ++
  (if uv_index ≥ 6 then [Advice.sunscreenHigh]
   else if uv_index ≥ 3 then [Advice.sunscreenMod] else []) ++
  (if weather_code = 45 ∨ weather_code = 48 then [Advice.fogCaution]
   else if weather_code = 65 ∨ weather_code = 67 ∨ weather_code = 82 then
     [Advice.stayIndoors]
   else if weather_code = 95 ∨ weather_code = 96 ∨ weather_code = 99 then
     [Advice.thunder]
   else if weather_code = 71 ∨ weather_code = 73 ∨ weather_code = 75 ∨
       weather_code = 85 ∨ weather_code = 86 then [Advice.snowIce]
   else [])

/-- WeatherBot.generate_rain_uv_alert threshold core (after the presence
guard on current/daily): collect umbrella and sunscreen advisories; when
the list is empty the method returns the empty string, modelled as none. -/
def generate_rain_uv_alert (precip_prob uv_index : Int) : Option (List Advice) :=
  let alerts :=
    (if precip_prob > 60 then [Advice.umbrellaStrong]
     else if precip_prob > 30 then [Advice.umbrellaWeak] else []) ++
    (if uv_index ≥ 6 then [Advice.sunscreenHigh]
     else if uv_index ≥ 3 then [Advice.sunscreenMod] else [])
  if alerts.isEmpty then none else some alerts

/-! Projection functions used to state that the ledger evolution and the
set of attempted notifications are independent of send outcomes. -/

/-- Key of a notification attempt: which user is notified about which
forecast hour. -/
def attemptKey (x : Notif) : Int × Int :=
  (x.user_id, x.forecast_time)

/-- Ledger evolution of one entry of the hourly loop: the sendOk-free
projection of sunnyStep. -/
def stepLedger (now uid : Int) (L : List SentRecord) (e : Option Int × Int) :
    List SentRecord :=
  match e.1 with
  | none => L
  | some t =>
    if t ≤ now then L
    else if e.2 = 0 then
      if 0 ≤ t - 7200 - now ∧ t - 7200 - now ≤ 7200 then
        if has_sent_alert_in_past_n_hours L uid (truncHour t) 2 now then L
        else mark_alert_sent L uid (truncHour t) now
      else L
    else L

/-- Notification attempts caused by one entry of the hourly loop. -/
def stepAttempts (now uid : Int) (L : List SentRecord) (e : Option Int × Int) :
    List (Int × Int) :=
  match e.1 with
  | none => []
  | some t =>
    if t ≤ now then []
    else if e.2 = 0 then
      if 0 ≤ t - 7200 - now ∧ t - 7200 - now ≤ 7200 then
        if has_sent_alert_in_past_n_hours L uid (truncHour t) 2 now then []
        else [(uid, t)]
      else []
    else []

/-- Notification attempts of a whole hourly series, threading the ledger. -/
def hoursAttempts (now uid : Int) : List SentRecord → List (Option Int × Int) →
    List (Int × Int)
  | _, [] => []
  | L, e :: rest =>
      stepAttempts now uid L e ++ hoursAttempts now uid (stepLedger now uid L e) rest

/-- Ledger evolution of one user of the scheduler tick. -/
def tickLedger (now : Int) (fetch : Int → Option HourlyData)
    (L : List SentRecord) (uid : Int) : List SentRecord :=
  match fetch uid with
  | none => L
  | some w => (w.times.zip w.codes).foldl (stepLedger now uid) L

/-- Notification attempts of one user of the scheduler tick. -/
def tickAttempts (now : Int) (fetch : Int → Option HourlyData)
    (L : List SentRecord) (uid : Int) : List (Int × Int) :=
  match fetch uid with
  | none => []
  | some w => hoursAttempts now uid L (w.times.zip w.codes)

/-- Notification attempts of a whole tick over the candidate users. -/
def schedAttempts (now : Int) (fetch : Int → Option HourlyData) :
    List SentRecord → List Int → List (Int × Int)
  | _, [] => []
  | L, u :: us =>
      tickAttempts now fetch L u ++ schedAttempts now fetch (tickLedger now fetch L u) us

/-- Number of ledger rows for a given (user_id, alert_time) key. -/
def keyCount (L : List SentRecord) (u bk : Int) : Nat :=
  L.countP (fun r => r.user_id == u && r.alert_time == bk)

/-! Helper lemmas shared by the claim theorems. -/

theorem sunnyStep_nonetime (now : Int) (sendOk : Int → Int → Bool) (uid : Int)
    (st : SunnyState) (c : Int) :
    sunnyStep now sendOk uid st (none, c) = st := rfl

theorem sunnyStep_past (now : Int) (sendOk : Int → Int → Bool) (uid : Int)
    (st : SunnyState) (t c : Int) (h : t ≤ now) :
    sunnyStep now sendOk uid st (some t, c) = st := by
  simp only [sunnyStep]
  rw [if_pos h]

theorem sunnyStep_notclear (now : Int) (sendOk : Int → Int → Bool) (uid : Int)
    (st : SunnyState) (t c : Int) (h : ¬ t ≤ now) (hc : ¬ c = 0) :
    sunnyStep now sendOk uid st (some t, c) = st := by
  simp only [sunnyStep]
  rw [if_neg h, if_neg hc]

theorem sunnyStep_nowindow (now : Int) (sendOk : Int → Int → Bool) (uid : Int)
    (st : SunnyState) (t c : Int) (h : ¬ t ≤ now)
    (hw : ¬ (0 ≤ t - 7200 - now ∧ t - 7200 - now ≤ 7200)) :
    sunnyStep now sendOk uid st (some t, c) = st := by
  simp only [sunnyStep]
  rw [if_neg h]
  by_cases hc : c = 0
  · rw [if_pos hc, if_neg hw]
  · rw [if_neg hc]

theorem sunnyStep_suppressed (now : Int) (sendOk : Int → Int → Bool) (uid : Int)
    (st : SunnyState) (t : Int) (h : ¬ t ≤ now)
    (hw : 0 ≤ t - 7200 - now ∧ t - 7200 - now ≤ 7200)
    (hs : has_sent_alert_in_past_n_hours st.ledger uid (truncHour t) 2 now = true) :
    sunnyStep now sendOk uid st (some t, 0) = st := by
  simp only [sunnyStep]
  rw [if_neg h, if_pos trivial, if_pos hw, if_pos hs]

theorem sunnyStep_emit (now : Int) (sendOk : Int → Int → Bool) (uid : Int)
    (st : SunnyState) (t : Int) (h : ¬ t ≤ now)
    (hw : 0 ≤ t - 7200 - now ∧ t - 7200 - now ≤ 7200)
    (hf : has_sent_alert_in_past_n_hours st.ledger uid (truncHour t) 2 now = false) :
    sunnyStep now sendOk uid st (some t, 0) =
      { ledger := mark_alert_sent st.ledger uid (truncHour t) now,
        notifs := st.notifs ++ [⟨uid, t, sendOk uid t⟩] } := by
  simp only [sunnyStep]
  rw [if_neg h, if_pos trivial, if_pos hw, if_neg (by simp [hf])]

theorem process_user_hours_nil (now : Int) (sendOk : Int → Int → Bool) (uid : Int)
    (codes : List Int) (st : SunnyState) :
    process_user_hours now sendOk uid [] codes st = st := rfl

theorem process_user_hours_cons (now : Int) (sendOk : Int → Int → Bool) (uid : Int)
    (t : Option Int) (ts : List (Option Int)) (c : Int) (cs : List Int) (st : SunnyState) :
    process_user_hours now sendOk uid (t :: ts) (c :: cs) st =
      process_user_hours now sendOk uid ts cs (sunnyStep now sendOk uid st (t, c)) := rfl

theorem has_sent_singleton_self (u bk n now s : Int) :
    has_sent_alert_in_past_n_hours [⟨u, bk, some s⟩] u bk n now =
      decide (now - s < n * 60 * 60) := by
  simp [has_sent_alert_in_past_n_hours, findSent, List.find?]

theorem has_sent_singleton_other (u bk bk2 n now : Int) (s : Option Int)
    (h : bk ≠ bk2) :
    has_sent_alert_in_past_n_hours [⟨u, bk, s⟩] u bk2 n now = false := by
  have hb : (bk == bk2) = false := by
    simpa using h
  simp [has_sent_alert_in_past_n_hours, findSent, List.find?, hb]

theorem has_sent_nil (u bk n now : Int) :
    has_sent_alert_in_past_n_hours [] u bk n now = false := rfl

theorem append_singleton_ne (ns : List Notif) (x : Notif) : ns ++ [x] ≠ ns := by
  intro h
  have := congrArg List.length h
  simp at this

theorem tickStep_visited (now : Int) (fetch : Int → Option HourlyData)
    (sendOk : Int → Int → Bool) (st : TickState) (uid : Int) :
    (tickStep now fetch sendOk st uid).visited = st.visited ++ [uid] := by
  cases h : fetch uid <;> simp [tickStep, h]

theorem foldl_tickStep_visited (now : Int) (fetch : Int → Option HourlyData)
    (sendOk : Int → Int → Bool) (users : List Int) (st : TickState) :
    (users.foldl (tickStep now fetch sendOk) st).visited = st.visited ++ users := by
  induction users generalizing st with
  | nil => simp
  | cons u us ih =>
      rw [List.foldl_cons, ih, tickStep_visited]
      simp

/-- The ledger evolution and the identity of every notification attempt
depend only on the incoming ledger, never on the accumulated notification
list nor on whether sends succeed; sunnyStep projects onto stepLedger and
stepAttempts. -/
theorem sunnyStep_proj (now : Int) (sendOk : Int → Int → Bool) (uid : Int)
    (st : SunnyState) (e : Option Int × Int) :
    (sunnyStep now sendOk uid st e).ledger = stepLedger now uid st.ledger e
    ∧ (sunnyStep now sendOk uid st e).notifs.map attemptKey =
        st.notifs.map attemptKey ++ stepAttempts now uid st.ledger e := by
  obtain ⟨t?, c⟩ := e
  cases t? with
  | none => simp [sunnyStep, stepLedger, stepAttempts]
  | some t =>
      simp only [sunnyStep, stepLedger, stepAttempts]
      split_ifs <;> simp [attemptKey]

theorem foldl_sunnyStep_proj (now : Int) (sendOk : Int → Int → Bool) (uid : Int)
    (es : List (Option Int × Int)) (st : SunnyState) :
    (es.foldl (sunnyStep now sendOk uid) st).ledger =
      es.foldl (stepLedger now uid) st.ledger
    ∧ (es.foldl (sunnyStep now sendOk uid) st).notifs.map attemptKey =
        st.notifs.map attemptKey ++ hoursAttempts now uid st.ledger es := by
  induction es generalizing st with
  | nil => simp [hoursAttempts]
  | cons e rest ih =>
      rw [List.foldl_cons, List.foldl_cons]
      obtain ⟨h1, h2⟩ := ih (sunnyStep now sendOk uid st e)
      obtain ⟨p1, p2⟩ := sunnyStep_proj now sendOk uid st e
      refine ⟨by rw [h1, p1], ?_⟩
      rw [h2, p2, p1, hoursAttempts, List.append_assoc]

theorem tickStep_proj (now : Int) (fetch : Int → Option HourlyData)
    (sendOk : Int → Int → Bool) (st : TickState) (uid : Int) :
    (tickStep now fetch sendOk st uid).ledger = tickLedger now fetch st.ledger uid
    ∧ (tickStep now fetch sendOk st uid).notifs.map attemptKey =
        st.notifs.map attemptKey ++ tickAttempts now fetch st.ledger uid := by
  cases h : fetch uid with
  | none => simp [tickStep, tickLedger, tickAttempts, h]
  | some w =>
      have := foldl_sunnyStep_proj now sendOk uid (w.times.zip w.codes) ⟨st.ledger, st.notifs⟩
      simp only [tickStep, tickLedger, tickAttempts, h, process_user_hours]
      exact this

theorem foldl_tickStep_proj (now : Int) (fetch : Int → Option HourlyData)
    (sendOk : Int → Int → Bool) (users : List Int) (st : TickState) :
    (users.foldl (tickStep now fetch sendOk) st).ledger =
      users.foldl (tickLedger now fetch) st.ledger
    ∧ (users.foldl (tickStep now fetch sendOk) st).notifs.map attemptKey =
        st.notifs.map attemptKey ++ schedAttempts now fetch st.ledger users := by
  induction users generalizing st with
  | nil => simp [schedAttempts]
  | cons u us ih =>
      rw [List.foldl_cons, List.foldl_cons]
      obtain ⟨h1, h2⟩ := ih (tickStep now fetch sendOk st u)
      obtain ⟨p1, p2⟩ := tickStep_proj now fetch sendOk st u
      refine ⟨by rw [h1, p1], ?_⟩
      rw [h2, p2, p1, schedAttempts, List.append_assoc]

/-! Claim theorems. -/

/-- C3: has_sent_alert_in_past_n_hours returns true iff a row exists for
(user_id, alert_time) whose recorded sent_at is within n hours of now; an
absent row yields false; an unparseable stored timestamp yields false
(fail-open); a row timestamped exactly n hours ago is expired while one
second less still suppresses. -/
theorem cooldown_semantics (L : List SentRecord) (u bk n now s : Int) (r : SentRecord) :
    (findSent L u bk = none → has_sent_alert_in_past_n_hours L u bk n now = false)
    ∧ (findSent L u bk = some r → r.sent_at = none →
        has_sent_alert_in_past_n_hours L u bk n now = false)
    ∧ (findSent L u bk = some r → r.sent_at = some s →
        (has_sent_alert_in_past_n_hours L u bk n now = true ↔ now - s < n * 60 * 60))
    ∧ has_sent_alert_in_past_n_hours [⟨u, bk, some (now - n * 60 * 60)⟩] u bk n now = false
    ∧ has_sent_alert_in_past_n_hours [⟨u, bk, some (now - (n * 60 * 60 - 1))⟩] u bk n now
        = true := by
  refine ⟨?_, ?_, ?_, ?_, ?_⟩
  · intro h
    simp [has_sent_alert_in_past_n_hours, h]
  · intro h h2
    simp [has_sent_alert_in_past_n_hours, h, h2]
  · intro h h2
    simp [has_sent_alert_in_past_n_hours, h, h2]
  · rw [has_sent_singleton_self]
    simp only [decide_eq_false_iff_not]
    omega
  · rw [has_sent_singleton_self]
    simp only [decide_eq_true_eq]
    omega

theorem cooldown_semantics_witness :
    has_sent_alert_in_past_n_hours [⟨1, 7200, some (1000 - 2 * 60 * 60)⟩] 1 7200 2 1000
        = false
    ∧ has_sent_alert_in_past_n_hours
        [⟨1, 7200, some (1000 - (2 * 60 * 60 - 1))⟩] 1 7200 2 1000 = true
    ∧ (findSent [] 1 7200 = none → has_sent_alert_in_past_n_hours [] 1 7200 2 1000 = false) :=
  ⟨(cooldown_semantics [] 1 7200 2 1000 0 ⟨1, 7200, none⟩).2.2.2.1,
   (cooldown_semantics [] 1 7200 2 1000 0 ⟨1, 7200, none⟩).2.2.2.2,
   (cooldown_semantics [] 1 7200 2 1000 0 ⟨1, 7200, none⟩).1⟩

/-- C4: mark_alert_sent is insert-if-absent: on an existing (user_id,
alert_time) row it raises no error (it is a total function) and leaves the
stored row, hence its timestamp, unchanged; it preserves the invariant that
the ledger holds at most one row per (user_id, alert_time) key. -/
theorem mark_sent_insert_if_absent (L : List SentRecord) (u bk now : Int) (r : SentRecord) :
    (findSent L u bk = some r → mark_alert_sent L u bk now = L)
    ∧ (findSent L u bk = none →
        mark_alert_sent L u bk now = ⟨u, bk, some now⟩ :: L)
    ∧ ((∀ a b : Int, keyCount L a b ≤ 1) →
        ∀ a b : Int, keyCount (mark_alert_sent L u bk now) a b ≤ 1) := by
  refine ⟨?_, ?_, ?_⟩
  · intro h
    simp [mark_alert_sent, h]
  · intro h
    simp [mark_alert_sent, h]
  · intro hinv a b
    cases hf : findSent L u bk with
    | some x =>
        simp only [mark_alert_sent, hf]
        exact hinv a b
    | none =>
        simp only [mark_alert_sent, hf, keyCount, List.countP_cons]
        by_cases hp : u = a ∧ bk = b
        · obtain ⟨rfl, rfl⟩ := hp
          have hzero : L.countP (fun x => x.user_id == u && x.alert_time == bk) = 0 := by
            rw [List.countP_eq_zero]
            intro x hx
            exact List.find?_eq_none.mp hf x hx
          simp [hzero]
        · have : (({ user_id := u, alert_time := bk, sent_at := some now } :
              SentRecord).user_id == a &&
              ({ user_id := u, alert_time := bk, sent_at := some now } :
              SentRecord).alert_time == b) = false := by
            simp only [Bool.and_eq_false_iff, beq_eq_false_iff_ne]
            by_cases h1 : u = a
            · right
              intro h2
              exact hp ⟨h1, h2⟩
            · left
              exact h1
          rw [this]
          simpa using hinv a b

theorem mark_sent_insert_if_absent_witness :
    findSent [⟨1, 7200, some 5⟩] 1 7200 = some ⟨1, 7200, some 5⟩
    ∧ mark_alert_sent [⟨1, 7200, some 5⟩] 1 7200 9999 = [⟨1, 7200, some 5⟩] :=
  ⟨by decide,
   (mark_sent_insert_if_absent [⟨1, 7200, some 5⟩] 1 7200 9999 ⟨1, 7200, some 5⟩).1
     (by decide)⟩

/-- C1: for one hourly entry with a parseable timestamp t, a past or present
t (t <= now) leaves the state untouched; for a strictly future t with no
suppressing ledger row, a notification is emitted exactly when the code is 0
and (t - 2h) lies in the closed window [now, now + 7200]; when emitted, the
ledger row is keyed by the forecast hour truncHour t (never by the send
instant now, which only enters as the stored sent_at value). -/
theorem sunny_entry_rule (now uid t code : Int) (sendOk : Int → Int → Bool)
    (st : SunnyState)
    (hfresh : has_sent_alert_in_past_n_hours st.ledger uid (truncHour t) 2 now = false) :
    (t ≤ now → sunnyStep now sendOk uid st (some t, code) = st)
    ∧ (now < t →
        ((sunnyStep now sendOk uid st (some t, code)).notifs ≠ st.notifs
          ↔ code = 0 ∧ 0 ≤ t - 7200 - now ∧ t - 7200 - now ≤ 7200))
    ∧ (now < t → code = 0 → 0 ≤ t - 7200 - now → t - 7200 - now ≤ 7200 →
        sunnyStep now sendOk uid st (some t, code) =
          { ledger := mark_alert_sent st.ledger uid (truncHour t) now,
            notifs := st.notifs ++ [⟨uid, t, sendOk uid t⟩] }) := by
  refine ⟨?_, ?_, ?_⟩
  · intro h
    exact sunnyStep_past now sendOk uid st t code h
  · intro hlt
    by_cases hc : code = 0
    · by_cases hw : 0 ≤ t - 7200 - now ∧ t - 7200 - now ≤ 7200
      · subst hc
        rw [sunnyStep_emit now sendOk uid st t (not_le.mpr hlt) hw hfresh]
        exact iff_of_true (append_singleton_ne st.notifs _) ⟨rfl, hw.1, hw.2⟩
      · rw [sunnyStep_nowindow now sendOk uid st t code (not_le.mpr hlt) hw]
        constructor
        · intro hcontra
          exact absurd rfl hcontra
        · intro hcon
          exact absurd hcon.2 hw
    · rw [sunnyStep_notclear now sendOk uid st t code (not_le.mpr hlt) hc]
      constructor
      · intro hcontra
        exact absurd rfl hcontra
      · intro hcon
        exact absurd hcon.1 hc
  · intro hlt hc h1 h2
    subst hc
    exact sunnyStep_emit now sendOk uid st t (not_le.mpr hlt) ⟨h1, h2⟩ hfresh

theorem sunny_entry_rule_witness :
    sunnyStep 0 (fun _ _ => true) 1 ⟨[], []⟩ (some 7200, 0) =
      ⟨[⟨1, 7200, some 0⟩], [⟨1, 7200, true⟩]⟩
    ∧ sunnyStep 0 (fun _ _ => true) 1 ⟨[], []⟩ (some (-5), 0) = ⟨[], []⟩ :=
  ⟨(sunny_entry_rule 0 1 7200 0 (fun _ _ => true) ⟨[], []⟩ rfl).2.2
     (by decide) rfl (by decide) (by decide),
   (sunny_entry_rule 0 1 (-5) 0 (fun _ _ => true) ⟨[], []⟩ rfl).1 (by decide)⟩

/-- C2: for a series containing one clear-sky hour H whose (H - 2h) lies in
the notify window, a first tick at `now` emits exactly one notification and
one ledger row for bucket truncHour H; a second tick at any instant now2
within the 2-hour cooldown of the first leaves the ledger unchanged and
emits nothing; and in a single tick two qualifying hours in distinct
buckets each produce their own notification. -/
theorem sunny_alert_idempotent (now now2 uid H t1 t2 : Int)
    (sendOk sendOk2 : Int → Int → Bool)
    (hH1 : now < H) (hH2 : 0 ≤ H - 7200 - now) (hH3 : H - 7200 - now ≤ 7200)
    (htick : now2 - now < 7200)
    (h11 : now < t1) (h12 : 0 ≤ t1 - 7200 - now) (h13 : t1 - 7200 - now ≤ 7200)
    (h21 : now < t2) (h22 : 0 ≤ t2 - 7200 - now) (h23 : t2 - 7200 - now ≤ 7200)
    (hne : truncHour t1 ≠ truncHour t2) :
    process_user_hours now sendOk uid [some H] [0] ⟨[], []⟩ =
      ⟨[⟨uid, truncHour H, some now⟩], [⟨uid, H, sendOk uid H⟩]⟩
    ∧ process_user_hours now2 sendOk2 uid [some H] [0]
        ⟨[⟨uid, truncHour H, some now⟩], []⟩ =
        ⟨[⟨uid, truncHour H, some now⟩], []⟩
    ∧ (process_user_hours now sendOk uid [some t1, some t2] [0, 0] ⟨[], []⟩).notifs =
        [⟨uid, t1, sendOk uid t1⟩, ⟨uid, t2, sendOk uid t2⟩] := by
  refine ⟨?_, ?_, ?_⟩
  · rw [process_user_hours_cons, process_user_hours_nil,
      sunnyStep_emit now sendOk uid _ H (not_le.mpr hH1) ⟨hH2, hH3⟩ (has_sent_nil _ _ _ _)]
    simp [mark_alert_sent, findSent]
  · rw [process_user_hours_cons, process_user_hours_nil]
    by_cases hA : H ≤ now2
    · exact sunnyStep_past now2 sendOk2 uid _ H 0 hA
    · by_cases hw : 0 ≤ H - 7200 - now2 ∧ H - 7200 - now2 ≤ 7200
      · refine sunnyStep_suppressed now2 sendOk2 uid _ H hA hw ?_
        rw [has_sent_singleton_self]
        simp only [decide_eq_true_eq]
        omega
      · exact sunnyStep_nowindow now2 sendOk2 uid _ H 0 hA hw
  · rw [process_user_hours_cons, process_user_hours_cons, process_user_hours_nil,
      sunnyStep_emit now sendOk uid _ t1 (not_le.mpr h11) ⟨h12, h13⟩ (has_sent_nil _ _ _ _)]
    have hm : mark_alert_sent ([] : List SentRecord) uid (truncHour t1) now =
        [⟨uid, truncHour t1, some now⟩] := rfl
    rw [sunnyStep_emit now sendOk uid _ t2 (not_le.mpr h21) ⟨h22, h23⟩ (by
      simp only [hm]
      exact has_sent_singleton_other uid (truncHour t1) (truncHour t2) 2 now (some now) hne)]
    simp

theorem sunny_alert_idempotent_witness :
    process_user_hours 0 (fun _ _ => true) 1 [some 7200] [0] ⟨[], []⟩ =
      ⟨[⟨1, 7200, some 0⟩], [⟨1, 7200, true⟩]⟩
    ∧ process_user_hours 3600 (fun _ _ => true) 1 [some 7200] [0]
        ⟨[⟨1, 7200, some 0⟩], []⟩ = ⟨[⟨1, 7200, some 0⟩], []⟩
    ∧ (process_user_hours 0 (fun _ _ => true) 1 [some 7200, some 10800] [0, 0]
        ⟨[], []⟩).notifs = [⟨1, 7200, true⟩, ⟨1, 10800, true⟩] :=
  (sunny_alert_idempotent 0 3600 1 7200 7200 10800 (fun _ _ => true) (fun _ _ => true)
    (by decide) (by decide) (by decide) (by decide) (by decide) (by decide) (by decide)
    (by decide) (by decide) (by decide) (by decide))

/-- C9: send and mark are not atomic in the failing direction: with a send
that fails for every message, a qualifying forecast hour still inserts the
ledger row for its bucket (the attempt is recorded with delivered = false),
and a later tick within the cooldown emits nothing, so the user is never
re-notified for that forecast hour even though no message was delivered. -/
theorem send_failure_still_marks (now now2 uid t : Int) (sendOk2 : Int → Int → Bool)
    (h1 : now < t) (h2 : 0 ≤ t - 7200 - now) (h3 : t - 7200 - now ≤ 7200)
    (htick : now2 - now < 7200) :
    process_user_hours now (fun _ _ => false) uid [some t] [0] ⟨[], []⟩ =
      ⟨[⟨uid, truncHour t, some now⟩], [⟨uid, t, false⟩]⟩
    ∧ (process_user_hours now2 sendOk2 uid [some t] [0]
        ⟨[⟨uid, truncHour t, some now⟩], []⟩).notifs = [] := by
  constructor
  · rw [process_user_hours_cons, process_user_hours_nil,
      sunnyStep_emit now (fun _ _ => false) uid _ t (not_le.mpr h1) ⟨h2, h3⟩
        (has_sent_nil _ _ _ _)]
    simp [mark_alert_sent, findSent]
  · rw [process_user_hours_cons, process_user_hours_nil]
    by_cases hA : t ≤ now2
    · rw [sunnyStep_past now2 sendOk2 uid _ t 0 hA]
    · by_cases hw : 0 ≤ t - 7200 - now2 ∧ t - 7200 - now2 ≤ 7200
      · rw [sunnyStep_suppressed now2 sendOk2 uid _ t hA hw (by
          rw [has_sent_singleton_self]
          simp only [decide_eq_true_eq]
          omega)]
      · rw [sunnyStep_nowindow now2 sendOk2 uid _ t 0 hA hw]

theorem send_failure_still_marks_witness :
    process_user_hours 0 (fun _ _ => false) 1 [some 7200] [0] ⟨[], []⟩ =
      ⟨[⟨1, 7200, some 0⟩], [⟨1, 7200, false⟩]⟩
    ∧ (process_user_hours 3600 (fun _ _ => true) 1 [some 7200] [0]
        ⟨[⟨1, 7200, some 0⟩], []⟩).notifs = [] :=
  send_failure_still_marks 0 3600 1 7200 (fun _ _ => true)
    (by decide) (by decide) (by decide) (by decide)

theorem zip_take_min {α β : Type} (l1 : List α) (l2 : List β) :
    (l1.take (min l1.length l2.length)).zip (l2.take (min l1.length l2.length)) =
      l1.zip l2 := by
  induction l1 generalizing l2 with
  | nil => simp
  | cons a as ih =>
      cases l2 with
      | nil => simp
      | cons b bs =>
          simp only [List.length_cons, Nat.succ_min_succ, List.take_succ_cons,
            List.zip_cons_cons, List.cons.injEq, true_and]
          exact ih bs

/-- C10: the evaluator is total over malformed hourly input: when the time
and weather_code series have unequal lengths the zipped pairs are truncated
to the shorter series (zip with strict=False raises no error), and an entry
whose timestamp fails to parse is skipped individually while evaluation of
the remaining entries continues. -/
theorem evaluator_total_on_malformed (now : Int) (sendOk : Int → Int → Bool)
    (uid : Int) (times ts : List (Option Int)) (codes cs : List Int)
    (st : SunnyState) (c : Int) :
    process_user_hours now sendOk uid times codes st =
      process_user_hours now sendOk uid
        (times.take (min times.length codes.length))
        (codes.take (min times.length codes.length)) st
    ∧ process_user_hours now sendOk uid (none :: ts) (c :: cs) st =
        process_user_hours now sendOk uid ts cs st := by
  constructor
  · simp only [process_user_hours]
    rw [zip_take_min]
  · rfl

/-- C5: every candidate returned by get_sunny_alert_users has a users row
(and therefore a saved location, since save_user_location is the only
writer of that table and always supplies one) and an active alert row of
type sunny; a user with no saved location never appears in the list. -/
theorem candidates_have_location_and_subscription (db : DB) (uid lat lon : Int)
    (name : String) :
    ((uid, lat, lon, name) ∈ get_sunny_alert_users db →
      (get_user_location db uid).isSome = true
      ∧ ∃ a ∈ db.alerts, a.user_id = uid ∧ a.alert_type = "sunny" ∧ a.active = true)
    ∧ (get_user_location db uid = none →
        (uid, lat, lon, name) ∉ get_sunny_alert_users db) := by
  have key : (uid, lat, lon, name) ∈ get_sunny_alert_users db →
      (get_user_location db uid).isSome = true
      ∧ ∃ a ∈ db.alerts, a.user_id = uid ∧ a.alert_type = "sunny" ∧ a.active = true := by
    intro hmem
    rw [get_sunny_alert_users, List.mem_dedup] at hmem
    obtain ⟨urow, hu, heq⟩ := List.mem_map.mp hmem
    rw [List.mem_filter] at hu
    obtain ⟨humem, hany⟩ := hu
    obtain ⟨h1, h2, h3, h4⟩ : urow.user_id = uid ∧ urow.location_lat = lat ∧
        urow.location_lon = lon ∧ urow.location_name = name := by
      simpa [Prod.ext_iff] using heq
    rw [List.any_eq_true] at hany
    obtain ⟨a, ha, hpa⟩ := hany
    have hp : (a.user_id = urow.user_id ∧ a.alert_type = "sunny") ∧ a.active = true := by
      simpa using hpa
    constructor
    · have hfind : (db.users.find? (fun r => r.user_id == uid)).isSome = true := by
        rw [List.find?_isSome]
        exact ⟨urow, humem, by simp [h1]⟩
      obtain ⟨x, hx⟩ := Option.isSome_iff_exists.mp hfind
      rw [get_user_location, hx]
      rfl
    · exact ⟨a, ha, hp.1.1.trans h1, hp.1.2, hp.2⟩
  refine ⟨key, ?_⟩
  intro hnone hmem
  have hsome := (key hmem).1
  rw [hnone] at hsome
  simp at hsome

theorem candidates_have_location_and_subscription_witness :
    (1, 10, 20, "loc") ∈ get_sunny_alert_users
      ⟨[⟨1, "u", 10, 20, "loc"⟩], [⟨5, 1, "sunny", "next_sunny_hour", "clear_sky", true⟩]⟩
    ∧ (get_user_location
        ⟨[⟨1, "u", 10, 20, "loc"⟩], [⟨5, 1, "sunny", "next_sunny_hour", "clear_sky", true⟩]⟩
        1).isSome = true :=
  ⟨by decide,
   ((candidates_have_location_and_subscription
      ⟨[⟨1, "u", 10, 20, "loc"⟩], [⟨5, 1, "sunny", "next_sunny_hour", "clear_sky", true⟩]⟩
      1 10 20 "loc").1 (by decide)).1⟩

/-- C6: umbrella advice is strong exactly when the precipitation
probability exceeds 60 and weak exactly when it lies in (30, 60]; sunscreen
advice is strong exactly when the UV index is at least 6 and moderate
exactly when it lies in [3, 6); generate_rain_uv_alert produces no message
exactly when neither threshold is crossed (so probability 30 and UV 2
trigger nothing). -/
theorem rain_uv_thresholds (wc p u : Int) :
    (Advice.umbrellaStrong ∈ get_recommendations wc p u ↔ 60 < p)
    ∧ (Advice.umbrellaWeak ∈ get_recommendations wc p u ↔ 30 < p ∧ p ≤ 60)
    ∧ (Advice.sunscreenHigh ∈ get_recommendations wc p u ↔ 6 ≤ u)
    ∧ (Advice.sunscreenMod ∈ get_recommendations wc p u ↔ 3 ≤ u ∧ u < 6)
    ∧ (generate_rain_uv_alert p u = none ↔ p ≤ 30 ∧ u < 3) := by
  simp only [get_recommendations, generate_rain_uv_alert, List.mem_append]
  split_ifs <;> simp_all <;> omega

/-- C7: deactivate_user_alerts followed by get_user_alerts returns the
empty list; deactivate_user_alerts is idempotent; the underlying alert rows
are neither deleted (the table keeps its length) nor lost (each row of the
user survives with active = false). -/
theorem deactivate_all_semantics (db : DB) (uid : Int) (a : AlertRow) :
    get_user_alerts (deactivate_user_alerts db uid) uid = []
    ∧ deactivate_user_alerts (deactivate_user_alerts db uid) uid =
        deactivate_user_alerts db uid
    ∧ (deactivate_user_alerts db uid).alerts.length = db.alerts.length
    ∧ (a ∈ db.alerts → a.user_id = uid →
        { a with active := false } ∈ (deactivate_user_alerts db uid).alerts) := by
  refine ⟨?_, ?_, ?_, ?_⟩
  · rw [get_user_alerts]
    have hnil : ((deactivate_user_alerts db uid).alerts.filter
        (fun x => x.user_id == uid && x.active)) = [] := by
      rw [List.filter_eq_nil_iff]
      intro x hx
      rw [deactivate_user_alerts] at hx
      obtain ⟨b, _hb, rfl⟩ := List.mem_map.mp hx
      by_cases hbu : (b.user_id == uid) = true
      · simp [hbu]
      · simp [hbu]
    rw [hnil]
    rfl
  · have hmaps : (db.alerts.map
        (fun a => if a.user_id == uid then { a with active := false } else a)).map
        (fun a => if a.user_id == uid then { a with active := false } else a) =
        db.alerts.map
          (fun a => if a.user_id == uid then { a with active := false } else a) := by
      rw [List.map_map]
      apply List.map_congr_left
      intro b _
      by_cases hbu : (b.user_id == uid) = true
      · simp [Function.comp, hbu]
      · simp [Function.comp, hbu]
    simp only [deactivate_user_alerts, hmaps]
  · simp [deactivate_user_alerts]
  · intro ha hu
    rw [deactivate_user_alerts]
    refine List.mem_map.mpr ⟨a, ha, ?_⟩
    simp [hu]

theorem deactivate_all_semantics_witness :
    get_user_alerts
      (deactivate_user_alerts ⟨[], [⟨7, 1, "sunny", "x", "y", true⟩]⟩ 1) 1 = []
    ∧ ({ (⟨7, 1, "sunny", "x", "y", true⟩ : AlertRow) with active := false } ∈
        (deactivate_user_alerts ⟨[], [⟨7, 1, "sunny", "x", "y", true⟩]⟩ 1).alerts) :=
  ⟨(deactivate_all_semantics ⟨[], [⟨7, 1, "sunny", "x", "y", true⟩]⟩ 1
      ⟨7, 1, "sunny", "x", "y", true⟩).1,
   (deactivate_all_semantics ⟨[], [⟨7, 1, "sunny", "x", "y", true⟩]⟩ 1
      ⟨7, 1, "sunny", "x", "y", true⟩).2.2.2 (by decide) (by decide)⟩

/-- C8: a scheduler tick visits every candidate user no matter which
fetches fail and which sends fail; a user whose forecast fetch returns an
absent value is skipped (the tick state is unchanged apart from the visit);
and the ledger evolution plus the identity of every notification attempt
are independent of send outcomes, so a send failure is swallowed without
aborting the remaining users. -/
theorem scheduler_failure_isolation (now : Int) (fetch : Int → Option HourlyData)
    (sendOk sendOk2 : Int → Int → Bool) (users : List Int) (L : List SentRecord)
    (st : TickState) (uid : Int) :
    (process_sunny_alerts now fetch sendOk users L).visited = users
    ∧ (fetch uid = none →
        tickStep now fetch sendOk st uid = { st with visited := st.visited ++ [uid] })
    ∧ (process_sunny_alerts now fetch sendOk users L).ledger =
        (process_sunny_alerts now fetch sendOk2 users L).ledger
    ∧ (process_sunny_alerts now fetch sendOk users L).notifs.map attemptKey =
        (process_sunny_alerts now fetch sendOk2 users L).notifs.map attemptKey := by
  refine ⟨?_, ?_, ?_, ?_⟩
  · rw [process_sunny_alerts, foldl_tickStep_visited]
    rfl
  · intro h
    simp [tickStep, h]
  · rw [process_sunny_alerts, process_sunny_alerts,
      (foldl_tickStep_proj now fetch sendOk users ⟨L, [], []⟩).1,
      (foldl_tickStep_proj now fetch sendOk2 users ⟨L, [], []⟩).1]
  · rw [process_sunny_alerts, process_sunny_alerts,
      (foldl_tickStep_proj now fetch sendOk users ⟨L, [], []⟩).2,
      (foldl_tickStep_proj now fetch sendOk2 users ⟨L, [], []⟩).2]

theorem scheduler_failure_isolation_witness :
    tickStep 0 (fun _ => none) (fun _ _ => true) ⟨[], [], []⟩ 1 = ⟨[], [], [1]⟩ :=
  (scheduler_failure_isolation 0 (fun _ => none) (fun _ _ => true) (fun _ _ => false)
    [1] [] ⟨[], [], []⟩ 1).2.1 rfl

end DaddyZeus
